import Mathlib

/-!
Shallow embedding of the xmlmonster HTTP service (two variants).

Source layout:
  * src/unnamed/part_000 — the persisting variant: a TLS HTTP server backed by
    a minio blob store, with handlers handleUpload / handleRead, a key
    generator composeBucketID built on an atomic.Int64 request counter, and
    the helpers httpWrite / writeNotFound.
  * src/main.go — the validating variant: a plain HTTP server whose single
    handler decodes the body as XML into a three-field record and replies
    with a status code only.

Bytes (request bodies, stored objects, response bodies) are modelled as Lean
Strings: every claim compares byte sequences only for equality and
concatenation, which Strings model faithfully.  The 64-bit atomic counter is
modelled as an Int with explicit signed two-complement wraparound (wrap64),
matching Go sync/atomic Int64.Add semantics.
-/

deriving instance DecidableEq for Except

namespace XmlMonster

/-- Go net/http ResponseWriter, observably: the status line is recorded by the
first WriteHeader call (later calls are superfluous and ignored), Write
implicitly sends status 200 if no header was written yet and appends bytes to
the body.  statusLine none means no explicit header was written yet; the
observed status of such a response defaults to 200. -/
structure ResponseWriter where
  statusLine : Option Nat
  respBody : String
  contentType : Option String
deriving DecidableEq, Repr

def ResponseWriter.empty : ResponseWriter :=
  { statusLine := Option.none, respBody := "", contentType := Option.none }

/-- net/http WriteHeader: only the first call takes effect. -/
def ResponseWriter.writeHeader (w : ResponseWriter) (code : Nat) : ResponseWriter :=
  match w.statusLine with
  | Option.none => { w with statusLine := some code }
  | some _ => w

/-- net/http Write: sends an implicit 200 header if none was written, then
appends the data to the response body. -/
def ResponseWriter.write (w : ResponseWriter) (data : String) : ResponseWriter :=
  let w' := w.writeHeader 200
  { w' with respBody := w'.respBody ++ data }

/-- The status code observed by the client (200 when nothing was set). -/
def ResponseWriter.status (w : ResponseWriter) : Nat :=
  w.statusLine.getD 200

/-- An inbound HTTP request, observably: method, URL path, the Content-Type
header value (empty string when absent, as Header.Get returns), the outcome
of io.ReadAll on the request body, and the bucket_id query parameter (empty
string when absent, as URL.Query().Get returns). -/
structure Request where
  method : String
  path : String
  contentType : String
  bodyRead : Except Unit String
  bucketIDParam : String
deriving DecidableEq, Repr

/-- part_000 and main.go writeNotFound: writes a fixed body and never sets a
status code. -/
def wrongPathBody : String := "<p>Oops, you walked the wrong path</p>"

def writeNotFound (w : ResponseWriter) : ResponseWriter :=
  w.write wrongPathBody

/-- part_000 httpWrite: WriteHeader(statusCode) then Write(data) when data is
nonempty. -/
def httpWrite (w : ResponseWriter) (statusCode : Nat) (data : String) : ResponseWriter :=
  let w' := w.writeHeader statusCode
  if 0 < data.length then w'.write data else w'

/-- Signed 64-bit two-complement wraparound, the overflow behavior of Go
sync/atomic Int64.Add. -/
def wrap64 (x : Int) : Int :=
  (x + 2 ^ 63) % 2 ^ 64 - 2 ^ 63

namespace Persisting

/-- part_000 composeBucketID: atomically increments the handler reqCount
(atomic.Int64, so with 64-bit wraparound) and formats the new value with
fmt.Sprintf, yielding the new counter value and the minted object key. -/
def composeBucketID (reqCount : Int) : Int × String :=
  let next := wrap64 (reqCount + 1)
  (next, "xmlobject/" ++ toString next)

/-- Outcomes of the external blob store and body drains for one request:
whether PutObject fails, whether GetObject fails, and whether io.ReadAll on a
retrieved object fails — drainFault = some p means ReadAll returns the
partially read bytes p together with an error (io.ReadAll returns the data
read up to the error). -/
structure Faults where
  putFail : Bool
  getFail : Bool
  drainFault : Option String
deriving DecidableEq, Repr

def Faults.noFault : Faults :=
  { putFail := false, getFail := false, drainFault := Option.none }

/-- The xmlParseHandler state: the reqCount atomic counter and the contents of
the fixed minio bucket "bucket1" (newest entry first; a later put to the same
key shadows the older object, as lookup finds the newest). -/
structure ServerState where
  reqCount : Int
  store : List (String × String)
deriving DecidableEq, Repr

def ServerState.init : ServerState :=
  { reqCount := 0, store := [] }

/-- part_000 (xph *xmlParseHandler) handleUpload, lines 107-132: method check
(405), content-type allow-list check (400), io.ReadAll of the body (500 on
failure), composeBucketID, PutObject (500 on failure), and on success a 200
response whose body is the minted key.  Returns the response and the updated
handler/store state. -/
def handleUpload (f : Faults) (st : ServerState) (r : Request) :
    ResponseWriter × ServerState :=
  let w := ResponseWriter.empty
  if r.method ≠ "POST" then
    (w.writeHeader 405, st)
  else if r.contentType ≠ "text/xml" ∧ r.contentType ≠ "application/xml" then
    (w.writeHeader 400, st)
  else
    match r.bodyRead with
    | .error _ => (httpWrite w 500 "failed to read content from body", st)
    | .ok rawXML =>
      let minted := composeBucketID st.reqCount
      let st' : ServerState := { st with reqCount := minted.1 }
      if f.putFail then
        (httpWrite w 500 "failed to upload object", st')
      else
        (httpWrite w 200 minted.2,
         { st' with store := (minted.2, rawXML) :: st'.store })

/-- part_000 (xph *xmlParseHandler) handleRead, lines 134-159: method check
(405), Content-Type response header, bucket_id presence check (400),
GetObject (500 on failure), io.ReadAll of the object (500 on failure — note
the source does not return after writing that 500, so control falls through
to the final httpWrite of the drained data), and a 200 response carrying the
drained bytes.  A GetObject on an absent key succeeds lazily (minio) and the
error surfaces in io.ReadAll, with no bytes drained.  Returns the response
and the list of keys passed to GetObject. -/
def handleRead (f : Faults) (st : ServerState) (r : Request) :
    ResponseWriter × List String :=
  if r.method ≠ "GET" then
    (ResponseWriter.empty.writeHeader 405, [])
  else
    let w := { ResponseWriter.empty with contentType := some "application/xml" }
    let bucketID := r.bucketIDParam
    if bucketID = "" then
      (httpWrite w 400 "bucket_id is required", [])
    else if f.getFail then
      (httpWrite w 500 "failed to get object", [bucketID])
    else
      match f.drainFault with
      | some drained =>
        let w' := httpWrite w 500 "failed to read object"
        (httpWrite w' 200 drained, [bucketID])
      | Option.none =>
        match st.store.lookup bucketID with
        | some data => (httpWrite w 200 data, [bucketID])
        | Option.none =>
          let w' := httpWrite w 500 "failed to read object"
          (httpWrite w' 200 "", [bucketID])

/-- part_000 ServeHTTP, lines 90-99: dispatch on the URL path.  Returns the
response, the updated state, and the list of keys passed to GetObject. -/
def serveHTTP (f : Faults) (st : ServerState) (r : Request) :
    ResponseWriter × ServerState × List String :=
  if r.path = "/upload" then
    let out := handleUpload f st r
    (out.1, out.2, [])
  else if r.path = "/read" then
    let out := handleRead f st r
    (out.1, st, out.2)
  else
    (writeNotFound ResponseWriter.empty, st, [])

/-- A sequential run of the server: requests are served one after the other,
each with its own external-fault outcomes, threading the handler state. -/
def runServer : ServerState → List (Request × Faults) → List ResponseWriter × ServerState
  | st, [] => ([], st)
  | st, (r, f) :: rest =>
    let out := serveHTTP f st r
    let tail := runServer out.2.1 rest
    (out.1 :: tail.1, tail.2)

/-- A well-formed upload request carrying body b. -/
def uploadReq (b : String) : Request :=
  { method := "POST", path := "/upload", contentType := "text/xml",
    bodyRead := .ok b, bucketIDParam := "" }

/-- A run of upload attempts: each item is the request body together with
whether its PutObject succeeds. -/
def uploadRun (items : List (String × Bool)) : List (Request × Faults) :=
  items.map fun it =>
    (uploadReq it.1,
     { putFail := !it.2, getFail := false, drainFault := Option.none })

/-- The sequence of (counter value, key) pairs produced by n invocations of
composeBucketID starting from counter c, in minted order.  Each invocation is
a single atomic fetch-add on the shared atomic.Int64, so an arbitrary
concurrent schedule of n invocations linearizes to exactly this sequence. -/
def mintKeys : Int → Nat → List (Int × String)
  | _, 0 => []
  | c, n + 1 =>
    let minted := composeBucketID c
    minted :: mintKeys minted.1 n

/-- The responses a sequential run of upload attempts is expected to produce
when the counter starts at c and never overflows: attempt k succeeds with a
200 whose body is the minted key when its put succeeds, and fails with the
fixed 500 message otherwise. -/
def expectedUploadResponses (c : Int) : List (String × Bool) → List ResponseWriter
  | [] => []
  | it :: rest =>
    (if it.2 then
      { statusLine := some 200, respBody := "xmlobject/" ++ toString (c + 1),
        contentType := Option.none }
     else
      { statusLine := some 500, respBody := "failed to upload object",
        contentType := Option.none }) :: expectedUploadResponses (c + 1) rest

end Persisting

/-- The numeric value of a decimal digit character (48 is the code of the
zero digit); left inverse of Nat.digitChar on digits below ten. -/
def digitVal (ch : Char) : Nat := ch.toNat - 48

/-- Decodes a list of decimal digit characters back into the number they
denote; used to show that the decimal rendering of the counter is injective,
so distinct counter values mint distinct object keys. -/
def decDigits (l : List Char) : Nat :=
  l.foldl (fun acc ch => 10 * acc + digitVal ch) 0

namespace Validating

/-- A well-formed XML element tree: an element with a name and children, or a
run of character data. -/
inductive XmlNode where
  | elem (name : String) (children : List XmlNode)
  | chardata (data : String)

/-- main.go xmlPayload: the three-field record targeted by xml.Decode, with
struct tags UserFrom, UserTo, Message. -/
structure xmlPayload where
  UserFrom : String
  UserTo : String
  Message : String
deriving DecidableEq, Repr

/-- Modelled from the spec: the character data Go encoding/xml saves into a
string field is the concatenated character data directly inside the element
(nested elements are skipped). -/
def elemText (children : List XmlNode) : String :=
  children.foldl
    (fun acc c =>
      match c with
      | .chardata s => acc ++ s
      | .elem _ _ => acc)
    ""

/-- Modelled from the spec: one child element of the document root updates the
field whose struct tag matches its name; other children are skipped. -/
def applyChild (p : xmlPayload) : XmlNode → xmlPayload
  | .chardata _ => p
  | .elem nm cs =>
    if nm = "UserFrom" then { p with UserFrom := elemText cs }
    else if nm = "UserTo" then { p with UserTo := elemText cs }
    else if nm = "Message" then { p with Message := elemText cs }
    else p

/-- Modelled from the spec: unmarshalling the root element into xmlPayload
starts from the zero value (all fields empty strings) and folds the children
over applyChild; absent fields therefore stay empty. -/
def decodePayload : XmlNode → xmlPayload
  | .elem _ cs => cs.foldl applyChild { UserFrom := "", UserTo := "", Message := "" }
  | .chardata _ => { UserFrom := "", UserTo := "", Message := "" }

/-- Modelled from the spec: Go encoding/xml Decode on the request body.  The
streaming parse of the raw bytes is summarized by its outcome: none when the
body is malformed or holds no element (Decode returns an error), some tree
when it is well-formed.  Unmarshalling a well-formed tree into the
three-string-field record never fails. -/
def decode (parsed : Option XmlNode) : Except Unit xmlPayload :=
  match parsed with
  | Option.none => .error ()
  | some root => .ok (decodePayload root)

/-- main.go handleUpload, lines 80-88: xml.Decode of the body; 400 on a decode
error, otherwise 200; nothing is written to the body and no blob store exists
in this variant — the second component is the list of store puts it performs,
always empty. -/
def handleUpload (parsed : Option XmlNode) :
    ResponseWriter × List (String × String) :=
  match decode parsed with
  | .error _ => (ResponseWriter.empty.writeHeader 400, [])
  | .ok _ => (ResponseWriter.empty.writeHeader 200, [])

/-- main.go ServeHTTP, lines 56-72: unknown path check (fixed body), method
check (405), content-type allow-list check (400), then handleUpload.  The
parsed argument is the outcome of xml.Decode on the request body. -/
def serveHTTP (parsed : Option XmlNode) (r : Request) :
    ResponseWriter × List (String × String) :=
  if r.path ≠ "/upload" then
    (writeNotFound ResponseWriter.empty, [])
  else if r.method ≠ "POST" then
    (ResponseWriter.empty.writeHeader 405, [])
  else if r.contentType ≠ "text/xml" ∧ r.contentType ≠ "application/xml" then
    (ResponseWriter.empty.writeHeader 400, [])
  else
    handleUpload parsed

end Validating

/-! ## Theorems -/

/-- C4: for every request to /upload, a non-POST method draws a 405, and a
POST whose Content-Type header is neither text/xml nor application/xml draws
a 400 regardless of the request body, in both the persisting and the
validating variant. -/
theorem upload_validation_statuses
    (f : Persisting.Faults) (st : Persisting.ServerState)
    (r : Request) (parsed : Option Validating.XmlNode)
    (hpath : r.path = "/upload") :
    (r.method ≠ "POST" →
      (Persisting.serveHTTP f st r).1.status = 405 ∧
      (Validating.serveHTTP parsed r).1.status = 405) ∧
    (r.method = "POST" → r.contentType ≠ "text/xml" →
      r.contentType ≠ "application/xml" →
      (Persisting.serveHTTP f st r).1.status = 400 ∧
      (Validating.serveHTTP parsed r).1.status = 400) := by
  obtain ⟨m, p, ct, bd, q⟩ := r
  simp only at hpath
  subst hpath
  refine ⟨fun hm => ?_, fun hm h1 h2 => ?_⟩
  · simp [Persisting.serveHTTP, Persisting.handleUpload, Validating.serveHTTP, hm,
      ResponseWriter.status, ResponseWriter.writeHeader, ResponseWriter.empty]
  · simp only at hm h1 h2
    subst hm
    simp [Persisting.serveHTTP, Persisting.handleUpload, Validating.serveHTTP, h1, h2,
      ResponseWriter.status, ResponseWriter.writeHeader, ResponseWriter.empty]

/-- C4 witness: a PUT to /upload with a JSON content type is answered 405 by
both variants, and a POST to /upload with a JSON content type is answered 400
by both variants. -/
theorem upload_validation_statuses_witness :
    ((Persisting.serveHTTP Persisting.Faults.noFault Persisting.ServerState.init
        { method := "PUT", path := "/upload", contentType := "application/json",
          bodyRead := .ok "x", bucketIDParam := "" }).1.status = 405 ∧
      (Validating.serveHTTP Option.none
        { method := "PUT", path := "/upload", contentType := "application/json",
          bodyRead := .ok "x", bucketIDParam := "" }).1.status = 405) ∧
    ((Persisting.serveHTTP Persisting.Faults.noFault Persisting.ServerState.init
        { method := "POST", path := "/upload", contentType := "application/json",
          bodyRead := .ok "x", bucketIDParam := "" }).1.status = 400 ∧
      (Validating.serveHTTP Option.none
        { method := "POST", path := "/upload", contentType := "application/json",
          bodyRead := .ok "x", bucketIDParam := "" }).1.status = 400) :=
  ⟨(upload_validation_statuses Persisting.Faults.noFault Persisting.ServerState.init
      { method := "PUT", path := "/upload", contentType := "application/json",
        bodyRead := .ok "x", bucketIDParam := "" } Option.none rfl).1 (by decide),
   (upload_validation_statuses Persisting.Faults.noFault Persisting.ServerState.init
      { method := "POST", path := "/upload", contentType := "application/json",
        bodyRead := .ok "x", bucketIDParam := "" } Option.none rfl).2 rfl
     (by decide) (by decide)⟩

/-- C9: on /upload the method check runs before the content-type check in both
variants, so a request whose method is not POST receives 405 even when its
Content-Type is also outside the allow-list. -/
theorem upload_method_check_precedes_content_type
    (f : Persisting.Faults) (st : Persisting.ServerState)
    (r : Request) (parsed : Option Validating.XmlNode)
    (hpath : r.path = "/upload") (hm : r.method ≠ "POST")
    (hct1 : r.contentType ≠ "text/xml") (hct2 : r.contentType ≠ "application/xml") :
    (Persisting.serveHTTP f st r).1.status = 405 ∧
    (Validating.serveHTTP parsed r).1.status = 405 := by
  obtain ⟨m, p, ct, bd, q⟩ := r
  simp only at hpath hm
  subst hpath
  simp [Persisting.serveHTTP, Persisting.handleUpload, Validating.serveHTTP, hm,
    ResponseWriter.status, ResponseWriter.writeHeader, ResponseWriter.empty]

/-- C9 witness: a DELETE of /upload with a JSON content type, where both
validations would fail, receives 405 (not 400) from both variants. -/
theorem upload_method_check_precedes_content_type_witness :
    (Persisting.serveHTTP Persisting.Faults.noFault Persisting.ServerState.init
      { method := "DELETE", path := "/upload", contentType := "application/json",
        bodyRead := .ok "{}", bucketIDParam := "" }).1.status = 405 ∧
    (Validating.serveHTTP Option.none
      { method := "DELETE", path := "/upload", contentType := "application/json",
        bodyRead := .ok "{}", bucketIDParam := "" }).1.status = 405 :=
  upload_method_check_precedes_content_type Persisting.Faults.noFault
    Persisting.ServerState.init
    { method := "DELETE", path := "/upload", contentType := "application/json",
      bodyRead := .ok "{}", bucketIDParam := "" } Option.none
    rfl (by decide) (by decide) (by decide)

/-- C7: a GET of /read whose bucket_id query parameter is absent or empty is
answered 400 with the fixed body, the blob store is never called (no GetObject
call is recorded), and the server state is unchanged. -/
theorem read_missing_bucket_id
    (f : Persisting.Faults) (st : Persisting.ServerState) (r : Request)
    (hpath : r.path = "/read") (hm : r.method = "GET") (hq : r.bucketIDParam = "") :
    (Persisting.serveHTTP f st r).1 =
      { statusLine := some 400, respBody := "bucket_id is required",
        contentType := some "application/xml" } ∧
    (Persisting.serveHTTP f st r).2.2 = [] ∧
    (Persisting.serveHTTP f st r).2.1 = st := by
  obtain ⟨m, p, ct, bd, q⟩ := r
  simp only at hpath hm hq
  subst hpath; subst hm; subst hq
  simp [Persisting.serveHTTP, Persisting.handleRead, httpWrite,
    ResponseWriter.writeHeader, ResponseWriter.write, ResponseWriter.empty]
  decide

/-- C7 witness: a GET of /read with an empty bucket_id parameter on a store
holding one object is answered 400 with the fixed body and no store call. -/
theorem read_missing_bucket_id_witness :
    (Persisting.serveHTTP Persisting.Faults.noFault
        { reqCount := 1, store := [("xmlobject/1", "<a/>")] }
        { method := "GET", path := "/read", contentType := "",
          bodyRead := .ok "", bucketIDParam := "" }).1 =
      { statusLine := some 400, respBody := "bucket_id is required",
        contentType := some "application/xml" } ∧
    (Persisting.serveHTTP Persisting.Faults.noFault
        { reqCount := 1, store := [("xmlobject/1", "<a/>")] }
        { method := "GET", path := "/read", contentType := "",
          bodyRead := .ok "", bucketIDParam := "" }).2.2 = [] ∧
    (Persisting.serveHTTP Persisting.Faults.noFault
        { reqCount := 1, store := [("xmlobject/1", "<a/>")] }
        { method := "GET", path := "/read", contentType := "",
          bodyRead := .ok "", bucketIDParam := "" }).2.1 =
      { reqCount := 1, store := [("xmlobject/1", "<a/>")] } :=
  read_missing_bucket_id Persisting.Faults.noFault
    { reqCount := 1, store := [("xmlobject/1", "<a/>")] }
    { method := "GET", path := "/read", contentType := "",
      bodyRead := .ok "", bucketIDParam := "" } rfl rfl rfl

/-- C8: a request whose path is served by neither handler gets the fixed
wrong-path body with status 200 (not 404), for every HTTP method, in both
variants; in the validating variant only /upload is served, so only the
upload path needs to be avoided. -/
theorem unknown_path_fixed_body
    (f : Persisting.Faults) (st : Persisting.ServerState)
    (r : Request) (parsed : Option Validating.XmlNode)
    (h1 : r.path ≠ "/upload") :
    ((Validating.serveHTTP parsed r).1 =
        { statusLine := some 200, respBody := wrongPathBody,
          contentType := Option.none } ∧
      (Validating.serveHTTP parsed r).1.status = 200) ∧
    (r.path ≠ "/read" →
      (Persisting.serveHTTP f st r).1 =
        { statusLine := some 200, respBody := wrongPathBody,
          contentType := Option.none } ∧
      (Persisting.serveHTTP f st r).1.status = 200) := by
  obtain ⟨m, p, ct, bd, q⟩ := r
  simp only at h1
  refine ⟨?_, fun h2 => ?_⟩
  · simp [Validating.serveHTTP, h1, writeNotFound, ResponseWriter.write,
      ResponseWriter.writeHeader, ResponseWriter.empty, ResponseWriter.status]
  · simp only at h2
    simp [Persisting.serveHTTP, h1, h2, writeNotFound, ResponseWriter.write,
      ResponseWriter.writeHeader, ResponseWriter.empty, ResponseWriter.status]

/-- C8 witness: a DELETE of /foo gets the fixed wrong-path body with status
200 from both variants. -/
theorem unknown_path_fixed_body_witness :
    ((Validating.serveHTTP Option.none
        { method := "DELETE", path := "/foo", contentType := "",
          bodyRead := .ok "", bucketIDParam := "" }).1 =
        { statusLine := some 200, respBody := wrongPathBody,
          contentType := Option.none } ∧
      (Validating.serveHTTP Option.none
        { method := "DELETE", path := "/foo", contentType := "",
          bodyRead := .ok "", bucketIDParam := "" }).1.status = 200) ∧
    ((Persisting.serveHTTP Persisting.Faults.noFault Persisting.ServerState.init
        { method := "DELETE", path := "/foo", contentType := "",
          bodyRead := .ok "", bucketIDParam := "" }).1 =
        { statusLine := some 200, respBody := wrongPathBody,
          contentType := Option.none } ∧
      (Persisting.serveHTTP Persisting.Faults.noFault Persisting.ServerState.init
        { method := "DELETE", path := "/foo", contentType := "",
          bodyRead := .ok "", bucketIDParam := "" }).1.status = 200) :=
  ⟨(unknown_path_fixed_body Persisting.Faults.noFault Persisting.ServerState.init
      { method := "DELETE", path := "/foo", contentType := "",
        bodyRead := .ok "", bucketIDParam := "" } Option.none (by decide)).1,
   (unknown_path_fixed_body Persisting.Faults.noFault Persisting.ServerState.init
      { method := "DELETE", path := "/foo", contentType := "",
        bodyRead := .ok "", bucketIDParam := "" } Option.none (by decide)).2
     (by decide)⟩

/-- httpWrite on a fresh writer (no header written yet, empty body) sets the
status code and writes exactly the given data. -/
theorem httpWrite_fresh (code : Nat) (data : String) (ct : Option String) :
    httpWrite { statusLine := Option.none, respBody := "", contentType := ct }
      code data =
    { statusLine := some code, respBody := data, contentType := ct } := by
  unfold httpWrite
  split
  · simp [ResponseWriter.write, ResponseWriter.writeHeader]
  · have hd : data = "" := by
      apply String.ext
      have hlen : data.length = 0 := by omega
      simpa using List.length_eq_zero.mp hlen
    simp [ResponseWriter.writeHeader, hd]

/-- A minted object key is never the empty string: it starts with the fixed
xmlobject/ tag. -/
theorem composeBucketID_snd_ne_empty (c : Int) :
    (Persisting.composeBucketID c).2 ≠ "" := by
  simp only [Persisting.composeBucketID]
  intro h
  have hlen := congrArg String.length h
  have h10 : ("xmlobject/").length = 10 := rfl
  simp [String.length_append, h10] at hlen

/-- When handleUpload answers 200 for a body that drained as B, the put
succeeded: the response body is the key minted from the current counter and
the new state stores B under that key with the incremented counter. -/
theorem handleUpload_success_shape
    (f : Persisting.Faults) (st : Persisting.ServerState) (r : Request) (B : String)
    (hb : r.bodyRead = .ok B)
    (h200 : (Persisting.handleUpload f st r).1.status = 200) :
    Persisting.handleUpload f st r =
      ({ statusLine := some 200,
         respBody := (Persisting.composeBucketID st.reqCount).2,
         contentType := Option.none },
       { reqCount := (Persisting.composeBucketID st.reqCount).1,
         store := ((Persisting.composeBucketID st.reqCount).2, B) :: st.store }) := by
  obtain ⟨m, p, ct, bd, q⟩ := r
  simp only at hb
  subst hb
  by_cases hm : m = "POST"
  · subst hm
    by_cases hct : ct ≠ "text/xml" ∧ ct ≠ "application/xml"
    · exfalso
      simp [Persisting.handleUpload, hct, ResponseWriter.status,
        ResponseWriter.writeHeader, ResponseWriter.empty] at h200
    · cases hput : f.putFail with
    | true =>
      exfalso
      simp [Persisting.handleUpload, hct, hput, ResponseWriter.empty,
        httpWrite_fresh, ResponseWriter.status] at h200
    | false =>
      simp [Persisting.handleUpload, hct, hput, ResponseWriter.empty,
        httpWrite_fresh]
  · exfalso
    simp [Persisting.handleUpload, hm, ResponseWriter.status,
      ResponseWriter.writeHeader, ResponseWriter.empty] at h200

/-- C3: round trip — when a POST of /upload whose body drained as B is
answered 200 with body K, a GET of /read with bucket_id K against the
resulting state (the store not otherwise modified, the store functioning)
returns 200 with body exactly B, leaves the state unchanged, and touches
exactly the key K. -/
theorem upload_then_read_round_trip
    (f : Persisting.Faults) (st : Persisting.ServerState) (r : Request) (B K : String)
    (hpath : r.path = "/upload") (hb : r.bodyRead = .ok B)
    (h200 : (Persisting.serveHTTP f st r).1.status = 200)
    (hK : (Persisting.serveHTTP f st r).1.respBody = K) :
    Persisting.serveHTTP Persisting.Faults.noFault
      (Persisting.serveHTTP f st r).2.1
      { method := "GET", path := "/read", contentType := "",
        bodyRead := .ok "", bucketIDParam := K } =
    ({ statusLine := some 200, respBody := B,
       contentType := some "application/xml" },
     (Persisting.serveHTTP f st r).2.1, [K]) := by
  obtain ⟨m, p, ct, bd, q⟩ := r
  simp only at hpath hb
  subst hpath
  simp only [Persisting.serveHTTP, reduceIte] at h200 hK ⊢
  have hshape := handleUpload_success_shape f st _ B hb h200
  rw [hshape] at hK ⊢
  simp only at hK
  subst hK
  have hne := composeBucketID_snd_ne_empty st.reqCount
  simp [Persisting.serveHTTP, Persisting.handleRead, Persisting.Faults.noFault,
    hne, List.lookup, httpWrite_fresh, ResponseWriter.empty]

/-- C3 witness: uploading a concrete body returns key xmlobject/1 and reading
that key back returns the same body byte for byte. -/
theorem upload_then_read_round_trip_witness :
    Persisting.serveHTTP Persisting.Faults.noFault
      (Persisting.serveHTTP Persisting.Faults.noFault Persisting.ServerState.init
        (Persisting.uploadReq "<a>hi</a>")).2.1
      { method := "GET", path := "/read", contentType := "",
        bodyRead := .ok "", bucketIDParam := "xmlobject/1" } =
    ({ statusLine := some 200, respBody := "<a>hi</a>",
       contentType := some "application/xml" },
     (Persisting.serveHTTP Persisting.Faults.noFault Persisting.ServerState.init
       (Persisting.uploadReq "<a>hi</a>")).2.1, ["xmlobject/1"]) :=
  upload_then_read_round_trip Persisting.Faults.noFault Persisting.ServerState.init
    (Persisting.uploadReq "<a>hi</a>") "<a>hi</a>" "xmlobject/1"
    rfl rfl (by decide) (by decide)

/-- Folding children over applyChild never touches the UserFrom field when no
child is an element named UserFrom. -/
theorem foldl_applyChild_UserFrom (cs : List Validating.XmlNode) :
    ∀ p : Validating.xmlPayload,
      (∀ cs', Validating.XmlNode.elem "UserFrom" cs' ∉ cs) →
      (cs.foldl Validating.applyChild p).UserFrom = p.UserFrom := by
  induction cs with
  | nil => intro p _; rfl
  | cons c rest ih =>
    intro p h
    rw [List.foldl_cons,
      ih _ (fun cs' hmem => h cs' (List.mem_cons_of_mem _ hmem))]
    cases c with
    | chardata s => rfl
    | elem nm cs' =>
      have h1 : nm ≠ "UserFrom" := fun he =>
        h cs' (he ▸ List.mem_cons_self _ _)
      by_cases h2 : nm = "UserTo" <;> by_cases h3 : nm = "Message" <;>
        simp [Validating.applyChild, h1, h2, h3]

/-- Folding children over applyChild never touches the UserTo field when no
child is an element named UserTo. -/
theorem foldl_applyChild_UserTo (cs : List Validating.XmlNode) :
    ∀ p : Validating.xmlPayload,
      (∀ cs', Validating.XmlNode.elem "UserTo" cs' ∉ cs) →
      (cs.foldl Validating.applyChild p).UserTo = p.UserTo := by
  induction cs with
  | nil => intro p _; rfl
  | cons c rest ih =>
    intro p h
    rw [List.foldl_cons,
      ih _ (fun cs' hmem => h cs' (List.mem_cons_of_mem _ hmem))]
    cases c with
    | chardata s => rfl
    | elem nm cs' =>
      have h1 : nm ≠ "UserTo" := fun he =>
        h cs' (he ▸ List.mem_cons_self _ _)
      by_cases h2 : nm = "UserFrom" <;> by_cases h3 : nm = "Message" <;>
        simp [Validating.applyChild, h1, h2, h3]

/-- Folding children over applyChild never touches the Message field when no
child is an element named Message. -/
theorem foldl_applyChild_Message (cs : List Validating.XmlNode) :
    ∀ p : Validating.xmlPayload,
      (∀ cs', Validating.XmlNode.elem "Message" cs' ∉ cs) →
      (cs.foldl Validating.applyChild p).Message = p.Message := by
  induction cs with
  | nil => intro p _; rfl
  | cons c rest ih =>
    intro p h
    rw [List.foldl_cons,
      ih _ (fun cs' hmem => h cs' (List.mem_cons_of_mem _ hmem))]
    cases c with
    | chardata s => rfl
    | elem nm cs' =>
      have h1 : nm ≠ "Message" := fun he =>
        h cs' (he ▸ List.mem_cons_self _ _)
      by_cases h2 : nm = "UserFrom" <;> by_cases h3 : nm = "UserTo" <;>
        simp [Validating.applyChild, h1, h2, h3]

/-- C5: in the validating variant, a POST of /upload that passes the method
and content-type checks is answered 400 exactly when the body fails to decode
as the three-field record; on a successful decode the response is 200 with an
empty body, no store put is performed, and a well-formed document missing the
UserFrom, UserTo or Message element still decodes with that field as the
empty string. -/
theorem validating_upload_decode_behavior
    (r : Request) (parsed : Option Validating.XmlNode)
    (hpath : r.path = "/upload") (hm : r.method = "POST")
    (hct : r.contentType = "text/xml" ∨ r.contentType = "application/xml") :
    ((Validating.serveHTTP parsed r).1.status = 400 ↔
      Validating.decode parsed = .error ()) ∧
    (∀ t : Validating.XmlNode, parsed = some t →
      (Validating.serveHTTP parsed r).1 =
        { statusLine := some 200, respBody := "", contentType := Option.none }) ∧
    (Validating.serveHTTP parsed r).2 = [] ∧
    (∀ nm cs, (∀ cs', Validating.XmlNode.elem "UserFrom" cs' ∉ cs) →
      (Validating.decodePayload (.elem nm cs)).UserFrom = "") ∧
    (∀ nm cs, (∀ cs', Validating.XmlNode.elem "UserTo" cs' ∉ cs) →
      (Validating.decodePayload (.elem nm cs)).UserTo = "") ∧
    (∀ nm cs, (∀ cs', Validating.XmlNode.elem "Message" cs' ∉ cs) →
      (Validating.decodePayload (.elem nm cs)).Message = "") := by
  obtain ⟨m, p, ct, bd, q⟩ := r
  simp only at hpath hm hct
  subst hpath; subst hm
  have hctif : ¬(ct ≠ "text/xml" ∧ ct ≠ "application/xml") := by
    rcases hct with h | h <;> subst h <;> decide
  refine ⟨?_, ?_, ?_, ?_, ?_, ?_⟩
  · cases parsed with
    | none =>
      simp [Validating.serveHTTP, Validating.handleUpload, Validating.decode, hctif,
        ResponseWriter.status, ResponseWriter.writeHeader, ResponseWriter.empty]
    | some t =>
      simp [Validating.serveHTTP, Validating.handleUpload, Validating.decode, hctif,
        ResponseWriter.status, ResponseWriter.writeHeader, ResponseWriter.empty]
  · intro t ht
    subst ht
    simp [Validating.serveHTTP, Validating.handleUpload, Validating.decode, hctif,
      ResponseWriter.writeHeader, ResponseWriter.empty]
  · cases parsed with
    | none =>
      simp [Validating.serveHTTP, Validating.handleUpload, Validating.decode, hctif]
    | some t =>
      simp [Validating.serveHTTP, Validating.handleUpload, Validating.decode, hctif]
  · intro nm cs h
    exact foldl_applyChild_UserFrom cs _ h
  · intro nm cs h
    exact foldl_applyChild_UserTo cs _ h
  · intro nm cs h
    exact foldl_applyChild_Message cs _ h

/-- C5 witness: with a well-formed body holding only a UserTo element, the
handler does not answer 400, answers 200 with an empty body, performs no
store put, and the decoded record has an empty UserFrom. -/
theorem validating_upload_decode_behavior_witness :
    ((Validating.serveHTTP
        (some (.elem "xmlPayload" [.elem "UserTo" [.chardata "b"]]))
        { method := "POST", path := "/upload", contentType := "text/xml",
          bodyRead := .ok "", bucketIDParam := "" }).1.status = 400 ↔
      Validating.decode
        (some (.elem "xmlPayload" [.elem "UserTo" [.chardata "b"]])) = .error ()) ∧
    (Validating.serveHTTP
        (some (.elem "xmlPayload" [.elem "UserTo" [.chardata "b"]]))
        { method := "POST", path := "/upload", contentType := "text/xml",
          bodyRead := .ok "", bucketIDParam := "" }).1 =
      { statusLine := some 200, respBody := "", contentType := Option.none } ∧
    (Validating.serveHTTP
        (some (.elem "xmlPayload" [.elem "UserTo" [.chardata "b"]]))
        { method := "POST", path := "/upload", contentType := "text/xml",
          bodyRead := .ok "", bucketIDParam := "" }).2 = [] ∧
    (Validating.decodePayload
        (.elem "xmlPayload" [.elem "UserTo" [.chardata "b"]])).UserFrom = "" := by
  have h := validating_upload_decode_behavior
    { method := "POST", path := "/upload", contentType := "text/xml",
      bodyRead := .ok "", bucketIDParam := "" }
    (some (.elem "xmlPayload" [.elem "UserTo" [.chardata "b"]]))
    rfl rfl (Or.inl rfl)
  refine ⟨h.1, h.2.1 _ rfl, h.2.2.1, h.2.2.2.1 "xmlPayload" _ ?_⟩
  intro cs' hmem
  simp at hmem

/-- Incrementing a 64-bit counter does not wrap while the value stays below
the signed maximum. -/
theorem wrap64_eq_self (x : Int) (h1 : 0 ≤ x) (h2 : x ≤ 2 ^ 63 - 1) :
    wrap64 x = x := by
  unfold wrap64
  norm_num at h2 ⊢
  have h3 : 0 ≤ x + 9223372036854775808 := by omega
  have h4 : x + 9223372036854775808 < 18446744073709551616 := by omega
  rw [Int.emod_eq_of_lt h3 h4]
  omega

/-- A sequential run of upload attempts starting from counter c with no
counter overflow produces exactly the expected responses, and the final
counter equals c plus the number of attempts — put failures included. -/
theorem runServer_uploadRun (items : List (String × Bool)) :
    ∀ (c : Int) (s0 : List (String × String)),
      0 ≤ c → c + items.length ≤ 2 ^ 63 - 1 →
      (Persisting.runServer { reqCount := c, store := s0 }
          (Persisting.uploadRun items)).1 =
        Persisting.expectedUploadResponses c items ∧
      (Persisting.runServer { reqCount := c, store := s0 }
          (Persisting.uploadRun items)).2.reqCount = c + items.length := by
  induction items with
  | nil =>
    intro c s0 hc hlen
    simp [Persisting.runServer, Persisting.uploadRun,
      Persisting.expectedUploadResponses]
  | cons it rest ih =>
    intro c s0 hc hlen
    obtain ⟨b, ok⟩ := it
    norm_num [List.length_cons] at hlen
    have hbound : (rest.length : Int) ≥ 0 := by positivity
    have hwrap : wrap64 (c + 1) = c + 1 := by
      apply wrap64_eq_self _ (by omega)
      norm_num
      omega
    cases ok with
    | true =>
      have step := ih (c + 1) (((Persisting.composeBucketID c).2, b) :: s0)
        (by omega) (by norm_num; omega)
      simp only [Persisting.uploadRun, List.map_cons] at step ⊢
      simp [Persisting.runServer, Persisting.serveHTTP, Persisting.handleUpload,
        Persisting.uploadReq, Persisting.composeBucketID, hwrap, httpWrite_fresh,
        ResponseWriter.empty, Persisting.expectedUploadResponses,
        Persisting.composeBucketID] at step ⊢
      refine ⟨step.1, ?_⟩
      rw [step.2]
      ring
    | false =>
      have step := ih (c + 1) s0 (by omega) (by norm_num; omega)
      simp only [Persisting.uploadRun, List.map_cons] at step ⊢
      simp [Persisting.runServer, Persisting.serveHTTP, Persisting.handleUpload,
        Persisting.uploadReq, Persisting.composeBucketID, hwrap, httpWrite_fresh,
        ResponseWriter.empty, Persisting.expectedUploadResponses] at step ⊢
      refine ⟨step.1, ?_⟩
      rw [step.2]
      ring

/-- The k-th expected upload response: a 200 carrying the key numbered
c + k + 1 when the k-th put succeeds, the fixed 500 message otherwise. -/
theorem expectedUploadResponses_getElem (items : List (String × Bool)) :
    ∀ (c : Int) (k : Nat) (hk : k < items.length),
      (Persisting.expectedUploadResponses c items)[k]? =
        some (if items[k].2 then
          { statusLine := some 200,
            respBody := "xmlobject/" ++ toString (c + k + 1),
            contentType := Option.none }
        else
          { statusLine := some 500, respBody := "failed to upload object",
            contentType := Option.none }) := by
  induction items with
  | nil => intro c k hk; simp at hk
  | cons it rest ih =>
    intro c k hk
    cases k with
    | zero =>
      simp [Persisting.expectedUploadResponses]
    | succ k' =>
      have hk' : k' < rest.length := by simpa using hk
      simp only [Persisting.expectedUploadResponses, List.getElem?_cons_succ,
        List.getElem_cons_succ]
      rw [ih (c + 1) k' hk']
      have harg : c + 1 + (k' : Int) + 1 = c + ((k' + 1 : Nat) : Int) + 1 := by
        push_cast
        ring
      rw [harg]

/-- C1: in a sequential run of the persisting variant in which every upload
succeeds, the n-th successful upload (counting from 1) is answered 200 and
its response body is exactly the key minted from the pre-increment counter
value n-1, namely the string xmlobject/ followed by n; the counter starts at
0 and is incremented before use, so the first key is xmlobject/1.  The bound
keeps the run within the range where the 64-bit counter cannot overflow,
which any run inside one process lifetime satisfies. -/
theorem nth_sequential_upload_key
    (bs : List String) (n : Nat)
    (h1 : 1 ≤ n) (h2 : n ≤ bs.length)
    (hlen : (bs.length : Int) ≤ 2 ^ 63 - 1) :
    ((Persisting.runServer Persisting.ServerState.init
        (Persisting.uploadRun (bs.map fun b => (b, true)))).1)[n - 1]? =
      some { statusLine := some 200,
             respBody := (Persisting.composeBucketID ((n : Int) - 1)).2,
             contentType := Option.none } ∧
    (Persisting.composeBucketID ((n : Int) - 1)).2 =
      "xmlobject/" ++ toString (n : Int) := by
  have hn : (n : Int) ≤ 2 ^ 63 - 1 := le_trans (by exact_mod_cast h2) hlen
  have hwrap : wrap64 (n : Int) = (n : Int) :=
    wrap64_eq_self _ (by positivity) hn
  have hsnd : (Persisting.composeBucketID ((n : Int) - 1)).2 =
      "xmlobject/" ++ toString (n : Int) := by
    simp [Persisting.composeBucketID, hwrap]
  refine ⟨?_, hsnd⟩
  have hrun := runServer_uploadRun (bs.map fun b => (b, true)) 0 []
    le_rfl (by simpa using hlen)
  have hinit : Persisting.ServerState.init =
      { reqCount := (0 : Int), store := ([] : List (String × String)) } := rfl
  rw [hinit, hrun.1]
  have hk : n - 1 < (bs.map fun b => (b, true)).length := by
    simp [List.length_map]
    omega
  rw [expectedUploadResponses_getElem _ 0 (n - 1) hk]
  have hcast : ((n - 1 : Nat) : Int) = (n : Int) - 1 := by
    rw [Nat.cast_sub h1]
    norm_num
  simp only [List.getElem_map, hcast, if_true]
  rw [hsnd]
  have harg : (0 : Int) + ((n : Int) - 1) + 1 = (n : Int) := by ring
  rw [harg]

/-- C1 witness: in a sequential run of two successful uploads, the second
upload is answered 200 with body xmlobject/2, the key minted from counter
value 1. -/
theorem nth_sequential_upload_key_witness :
    ((Persisting.runServer Persisting.ServerState.init
        (Persisting.uploadRun (["<a/>", "<b/>"].map fun b => (b, true)))).1)[2 - 1]? =
      some { statusLine := some 200,
             respBody := (Persisting.composeBucketID ((2 : Int) - 1)).2,
             contentType := Option.none } ∧
    (Persisting.composeBucketID ((2 : Int) - 1)).2 =
      "xmlobject/" ++ toString (2 : Int) :=
  nth_sequential_upload_key ["<a/>", "<b/>"] 2 (by decide) (by decide)
    (by norm_num)

/-- C10: in a sequential run of upload attempts, the key counter is consumed
by every attempt whether or not its put succeeds: the k-th attempt (0-based)
is answered 200 with the key minted from counter value k when its put
succeeds and 500 when it fails, and after the run the counter equals the
number of attempts regardless of failures — so a failed put consumes a key
number and the keys of the surrounding successful uploads are not
contiguous. -/
theorem failed_put_still_consumes_key
    (items : List (String × Bool)) (k : Nat)
    (hk : k < items.length)
    (hlen : (items.length : Int) ≤ 2 ^ 63 - 1) :
    ((Persisting.runServer Persisting.ServerState.init
        (Persisting.uploadRun items)).1)[k]? =
      some (if items[k].2 then
        { statusLine := some 200,
          respBody := (Persisting.composeBucketID (k : Int)).2,
          contentType := Option.none }
      else
        { statusLine := some 500, respBody := "failed to upload object",
          contentType := Option.none }) ∧
    (Persisting.runServer Persisting.ServerState.init
        (Persisting.uploadRun items)).2.reqCount = items.length := by
  have hki : (k : Int) + 1 ≤ 2 ^ 63 - 1 := by
    have : (k : Int) + 1 ≤ (items.length : Int) := by exact_mod_cast hk
    omega
  have hwrap : wrap64 ((k : Int) + 1) = (k : Int) + 1 :=
    wrap64_eq_self _ (by positivity) hki
  have hsnd : (Persisting.composeBucketID (k : Int)).2 =
      "xmlobject/" ++ toString ((k : Int) + 1) := by
    simp [Persisting.composeBucketID, hwrap]
  have hrun := runServer_uploadRun items 0 [] le_rfl (by simpa using hlen)
  have hinit : Persisting.ServerState.init =
      { reqCount := (0 : Int), store := ([] : List (String × String)) } := rfl
  rw [hinit, hrun.1]
  refine ⟨?_, by rw [hrun.2]; ring⟩
  rw [expectedUploadResponses_getElem _ 0 k hk, hsnd]
  have harg : (0 : Int) + (k : Int) + 1 = (k : Int) + 1 := by ring
  rw [harg]

/-- C10 witness: in a run whose second put fails, the first and third uploads
return the keys minted from counter values 0 and 2 (xmlobject/1 and
xmlobject/3 — a gap), and the counter afterwards is 3. -/
theorem failed_put_still_consumes_key_witness :
    ((Persisting.runServer Persisting.ServerState.init
        (Persisting.uploadRun [("<a/>", true), ("<b/>", false), ("<c/>", true)])).1)[2]? =
      some (if [("<a/>", true), ("<b/>", false), ("<c/>", true)][2].2 then
        { statusLine := some 200,
          respBody := (Persisting.composeBucketID (2 : Int)).2,
          contentType := Option.none }
      else
        { statusLine := some 500, respBody := "failed to upload object",
          contentType := Option.none }) ∧
    (Persisting.runServer Persisting.ServerState.init
        (Persisting.uploadRun [("<a/>", true), ("<b/>", false), ("<c/>", true)])).2.reqCount =
      [("<a/>", true), ("<b/>", false), ("<c/>", true)].length :=
  failed_put_still_consumes_key [("<a/>", true), ("<b/>", false), ("<c/>", true)]
    2 (by decide) (by norm_num)

/-- The digit accumulator of toDigitsCore only prepends to its third
argument. -/
theorem toDigitsCore_shift (b : Nat) :
    ∀ (fuel n : Nat) (ds : List Char),
      Nat.toDigitsCore b fuel n ds = Nat.toDigitsCore b fuel n [] ++ ds := by
  intro fuel
  induction fuel with
  | zero => intro n ds; simp [Nat.toDigitsCore]
  | succ fuel ih =>
    intro n ds
    simp only [Nat.toDigitsCore]
    by_cases h : n / b = 0
    · simp [h]
    · rw [if_neg h, if_neg h, ih (n / b) (Nat.digitChar (n % b) :: ds),
        ih (n / b) [Nat.digitChar (n % b)]]
      simp

/-- digitVal is a left inverse of Nat.digitChar on decimal digits. -/
theorem digitVal_digitChar (n : Nat) (h : n < 10) :
    digitVal (Nat.digitChar n) = n := by
  interval_cases n <;> rfl

/-- Appending one digit multiplies the decoded value by ten and adds the
digit. -/
theorem decDigits_append (l : List Char) (ch : Char) :
    decDigits (l ++ [ch]) = 10 * decDigits l + digitVal ch := by
  unfold decDigits
  rw [List.foldl_append]
  rfl

/-- decDigits decodes the digit string produced by toDigitsCore whenever the
fuel exceeds the number. -/
theorem decDigits_toDigitsCore :
    ∀ (fuel n : Nat), n < fuel →
      decDigits (Nat.toDigitsCore 10 fuel n []) = n := by
  intro fuel
  induction fuel with
  | zero => intro n h; omega
  | succ fuel ih =>
    intro n h
    simp only [Nat.toDigitsCore]
    by_cases h0 : n / 10 = 0
    · rw [if_pos h0]
      have hlt : n < 10 := by omega
      show decDigits [Nat.digitChar (n % 10)] = n
      unfold decDigits
      simp [Nat.mod_eq_of_lt hlt, digitVal_digitChar n hlt]
    · rw [if_neg h0, toDigitsCore_shift, decDigits_append]
      have hn10 : n / 10 < fuel := by omega
      rw [ih _ hn10, digitVal_digitChar (n % 10) (by omega)]
      exact Nat.div_add_mod n 10

/-- decDigits decodes the decimal rendering used by Nat.repr. -/
theorem decDigits_toDigits (n : Nat) : decDigits (Nat.toDigits 10 n) = n :=
  decDigits_toDigitsCore (n + 1) n (Nat.lt_succ_self n)

/-- Distinct naturals have distinct decimal renderings. -/
theorem natRepr_injective : Function.Injective Nat.repr := by
  intro a b h
  have hd : Nat.toDigits 10 a = Nat.toDigits 10 b := by
    have hdata := congrArg String.data h
    simpa [Nat.repr, List.asString] using hdata
  have hv := congrArg decDigits hd
  simpa [decDigits_toDigits] using hv

/-- Appending to a fixed front string is injective. -/
theorem append_left_cancel_str (p s t : String) (h : p ++ s = p ++ t) :
    s = t := by
  have hd := congrArg String.data h
  simp only [String.data_append] at hd
  exact String.ext (List.append_cancel_left hd)

/-- Rendering a positive counter value mirrors the decimal rendering of the
corresponding natural number. -/
theorem toString_int_succ (m : Nat) :
    toString ((m : Int) + 1) = Nat.repr (m + 1) := rfl

/-- The key-minting map on counter positions is injective: distinct positions
mint distinct key strings. -/
theorem mintKey_injective :
    Function.Injective fun i : Nat => "xmlobject/" ++ toString ((i : Int) + 1) := by
  intro a b h
  simp only [toString_int_succ] at h
  have := natRepr_injective (append_left_cancel_str _ _ _ h)
  omega

/-- Closed form of the mint sequence while the counter cannot overflow: the
i-th mint (0-based) from initial counter c yields value c + i + 1 and the
key rendering it. -/
theorem mintKeys_eq (n : Nat) :
    ∀ c : Int, 0 ≤ c → c + n ≤ 2 ^ 63 - 1 →
      Persisting.mintKeys c n =
        (List.range n).map fun i : Nat =>
          (c + i + 1, "xmlobject/" ++ toString (c + i + 1)) := by
  induction n with
  | zero => intro c hc hn; simp [Persisting.mintKeys]
  | succ n ih =>
    intro c hc hn
    norm_num at hn
    have hwrap : wrap64 (c + 1) = c + 1 := by
      apply wrap64_eq_self _ (by omega)
      norm_num
      omega
    simp only [Persisting.mintKeys, Persisting.composeBucketID, hwrap]
    rw [ih (c + 1) (by omega) (by norm_num; omega)]
    rw [List.range_succ_eq_map, List.map_cons, List.map_map]
    congr 1
    · norm_num
    · apply List.map_congr_left
      intro i _
      have harg : c + 1 + (i : Int) + 1 = c + ((Nat.succ i : Nat) : Int) + 1 := by
        push_cast
        ring
      simp [Function.comp, harg]

/-- C2: any concurrent schedule of N successful uploads linearizes — each
counter increment being one atomic fetch-add — to the mint sequence from 0,
whose N keys are pairwise distinct, whose counter values are strictly
increasing in minted order, and whose key numbers are exactly 1..N with no
number lost or duplicated; the bound keeps the run inside one process
lifetime, where the 64-bit counter cannot overflow. -/
theorem concurrent_upload_keys_distinct_increasing
    (N : Nat) (hN : (N : Int) ≤ 2 ^ 63 - 1) :
    ((Persisting.mintKeys 0 N).map Prod.fst).Pairwise (· < ·) ∧
    ((Persisting.mintKeys 0 N).map Prod.snd).Nodup ∧
    (Persisting.mintKeys 0 N).map Prod.fst =
      (List.range N).map (fun i : Nat => (i : Int) + 1) := by
  have hm := mintKeys_eq N 0 le_rfl (by simpa using hN)
  rw [hm]
  simp only [List.map_map]
  have hfst : (Prod.fst ∘ fun i : Nat =>
      ((0 : Int) + i + 1, "xmlobject/" ++ toString ((0 : Int) + i + 1))) =
      fun i : Nat => (i : Int) + 1 := by
    funext i
    simp
  have hsnd : (Prod.snd ∘ fun i : Nat =>
      ((0 : Int) + i + 1, "xmlobject/" ++ toString ((0 : Int) + i + 1))) =
      fun i : Nat => "xmlobject/" ++ toString ((i : Int) + 1) := by
    funext i
    simp
  refine ⟨?_, ?_, ?_⟩
  · rw [hfst]
    exact (List.pairwise_lt_range N).map _ (fun a b hab => by omega)
  · rw [hsnd]
    exact (List.nodup_range N).map mintKey_injective
  · rw [hfst]

/-- C2 witness: three concurrent uploads mint values 1, 2, 3 — strictly
increasing in minted order — and three pairwise distinct keys. -/
theorem concurrent_upload_keys_distinct_increasing_witness :
    ((Persisting.mintKeys 0 3).map Prod.fst).Pairwise (· < ·) ∧
    ((Persisting.mintKeys 0 3).map Prod.snd).Nodup ∧
    (Persisting.mintKeys 0 3).map Prod.fst =
      (List.range 3).map (fun i : Nat => (i : Int) + 1) :=
  concurrent_upload_keys_distinct_increasing 3 (by norm_num)

/-- C6 failing input: on a GET of /read with a nonempty bucket_id, when
GetObject succeeds but draining the object fails after three bytes were read,
the missing return in the source makes control fall through to the final
httpWrite, so the partially drained object bytes are appended to the response
body after the fixed 500 message — the response is not the fixed generic
message and nothing else, contradicting the claim for the drain-failure
path. -/
theorem read_drain_failure_appends_partial_bytes :
    Persisting.serveHTTP
      { putFail := false, getFail := false, drainFault := some "<a>" }
      { reqCount := 1, store := [("xmlobject/1", "<a>hello</a>")] }
      { method := "GET", path := "/read", contentType := "",
        bodyRead := .ok "", bucketIDParam := "xmlobject/1" } =
    ({ statusLine := some 500,
       respBody := "failed to read object" ++ "<a>",
       contentType := some "application/xml" },
     { reqCount := 1, store := [("xmlobject/1", "<a>hello</a>")] },
     ["xmlobject/1"]) := by
  decide

end XmlMonster
